import Mathlib

/-!
# Shallow embedding of the TMS VRP core (Rithvikkumar-Thirumoorthy/TMS)

This file embeds, in Lean 4, the parts of the Python repository that the
claims C1..C10 are about:

* the entity model (`src/vrp_solver/models/*.py`): time windows, forbidden
  intervals, stores, vehicles, route stops, routes, solutions;
* the feasibility kernel (`src/vrp_solver/constraints/validator.py`);
* the Clarke-Wright savings solver (`src/vrp_solver/solvers/clarke_wright.py`);
* the ALNS destroy step and acceptance loop
  (`src/vrp_solver/solvers/alns_solver.py`);
* the weekly consolidation statistics
  (`src/vrp_solver/consolidation/multiday_optimizer.py`).

Modelling conventions:

* Python floats are modelled as `ℚ` (exact arithmetic; the claims under
  study are about exact formulas, not float rounding).
* Python `datetime` values are modelled as rational minutes since an epoch;
  `datetime.time()` is minutes-since-midnight (`todMin`), and
  `datetime.replace(hour=h, minute=m)` keeps the date and the sub-minute
  part (`replaceHM`).
* Python dicts are modelled as insertion-ordered association lists.
* The human-readable violation strings of the validator are modelled by the
  structured inductive type `Violation` (one constructor per message shape).
* Randomness: the Python code draws from the process-global `random` module.
  Wherever a function consumes randomness, the embedded version takes the
  drawn data (a shuffled list, a uniform draw, ...) as an explicit argument.
-/

/-- An insertion-ordered string-keyed association list, modelling a Python
dict.  `dictGet` is `d.get(k)` / `d[k]`. -/
def dictGet {α : Type} : List (String × α) → String → Option α
  | [], _ => none
  | (k, v) :: rest, key => if k = key then some v else dictGet rest key

/-- `d[k] = v` for a Python dict: replaces the value in place when the key
is present, appends otherwise (insertion order is preserved). -/
def dictPut {α : Type} (l : List (String × α)) (key : String) (v : α) :
    List (String × α) :=
  if (l.find? (fun p => p.1 = key)).isSome then
    l.map (fun p => if p.1 = key then (key, v) else p)
  else l ++ [(key, v)]

/-- A nested dict `id -> id -> float`, as used for the distance and travel
time matrices. -/
def SMatrix : Type := List (String × List (String × ℚ))

/-- `m[a][b]` when both keys are present (`a in m and b in m[a]`). -/
def SMatrix.entry? (m : SMatrix) (a b : String) : Option ℚ :=
  match dictGet m a with
  | some row => dictGet row b
  | none => none

/-- `m.get(a, {}).get(b, 0)` — the defaulting lookup used by the solvers. -/
def SMatrix.getD0 (m : SMatrix) (a b : String) : ℚ :=
  (m.entry? a b).getD 0

/-- Emptiness of the matrix dict (`if self.time_matrix:`). -/
def SMatrix.isEmpty (m : SMatrix) : Bool :=
  List.isEmpty m

/-- Minutes-since-midnight of a timestamp given in rational minutes since
the epoch: models `datetime.time()`. -/
def todMin (t : ℚ) : ℚ :=
  t - 1440 * ((⌊t / 1440⌋ : ℤ) : ℚ)

/-- Models `dt.replace(hour=e.hour, minute=e.minute)` where `e` is a
time-of-day in minutes: the date part and the sub-minute part of `t` are
kept, the hour and minute fields are taken from `e`. -/
def replaceHM (t : ℚ) (e : ℚ) : ℚ :=
  1440 * ((⌊t / 1440⌋ : ℤ) : ℚ) + ((⌊e⌋ : ℤ) : ℚ) + (todMin t - ((⌊todMin t⌋ : ℤ) : ℚ))

/-- `TimeWindow` from `models/time_window.py`: an allowed delivery window.
`earliest`/`latest` are times of day in minutes since midnight. -/
structure TimeWindow where
  earliest : ℚ
  latest : ℚ
  day : Option String := none
deriving DecidableEq, Repr

/-- `TimeWindow.contains`: `earliest <= t <= latest`. -/
def TimeWindow.containsT (w : TimeWindow) (t : ℚ) : Bool :=
  decide (w.earliest ≤ t) && decide (t ≤ w.latest)

/-- `TimeWindow.duration_minutes`: `latest_mins - earliest_mins` using only
the hour and minute fields. -/
def TimeWindow.duration_minutes (w : TimeWindow) : ℤ :=
  ⌊w.latest⌋ - ⌊w.earliest⌋

/-- `ForbiddenInterval` from `models/time_window.py` (`end` is a Lean
keyword, hence `endTime`). -/
structure ForbiddenInterval where
  start : ℚ
  endTime : ℚ
  reason : String := "Blackout period"
deriving DecidableEq, Repr

/-- `ForbiddenInterval.conflicts_with`: `start <= t <= end`. -/
def ForbiddenInterval.conflicts_with (f : ForbiddenInterval) (t : ℚ) : Bool :=
  decide (f.start ≤ t) && decide (t ≤ f.endTime)

/-- `Store` from `models/store.py` (the fields used by the core; `latitude`,
`longitude`, `notes` and `priority` play no role in the claims). -/
structure Store where
  id : String
  name : String := ""
  demand_cbm : ℚ
  time_windows : List TimeWindow := []
  forbidden_intervals : List ForbiddenInterval := []
  excluded_days : List String := []
  preferred_days : List String := []
  service_time_minutes : ℚ := 60
deriving DecidableEq, Repr

/-- `Store.is_day_allowed`: `day not in self.excluded_days`. -/
def Store.is_day_allowed (s : Store) (day : String) : Bool :=
  !(s.excluded_days.contains day)

/-- `Store.get_time_window_for_day`: first a day-specific window, then the
untagged default.  The Python parameter may be a day string or `None`
(`route.day`), hence `Option String`. -/
def Store.get_time_window_for_day (s : Store) (day : Option String) : Option TimeWindow :=
  match s.time_windows.find? (fun tw => tw.day == day) with
  | some tw => some tw
  | none => s.time_windows.find? (fun tw => tw.day == none)

/-- `Vehicle` from `models/vehicle.py`. -/
structure Vehicle where
  id : String
  name : String := ""
  capacity_cbm : ℚ
  allowed_store_ids : List String := []
  forbidden_store_ids : List String := []
  max_route_duration_hours : ℚ := 12
  start_time : String := "08:00"
  fixed_cost : ℚ := 1000
  cost_per_km : ℚ := 2
  vehicle_type : String := "Standard"
  driver_name : String := ""
deriving DecidableEq, Repr

/-- `Vehicle.can_serve_store`: forbidden list wins; a non-empty allowed
list is exclusive; otherwise any store. -/
def Vehicle.can_serve_store (v : Vehicle) (store_id : String) : Bool :=
  if v.forbidden_store_ids.contains store_id then false
  else if !v.allowed_store_ids.isEmpty then v.allowed_store_ids.contains store_id
  else true

/-- `Vehicle.can_fit_demand`: `current_load + demand <= capacity`. -/
def Vehicle.can_fit_demand (v : Vehicle) (demand_cbm : ℚ) (current_load : ℚ := 0) : Bool :=
  decide (current_load + demand_cbm ≤ v.capacity_cbm)

/-- `RouteStop` from `models/route.py`.  Timestamps are rational minutes
since the epoch; `none` models Python `None`. -/
structure RouteStop where
  store : Store
  arrival_time : Option ℚ := none
  departure_time : Option ℚ := none
  load_before : ℚ := 0
  load_after : ℚ := 0
  sequence : ℕ := 0
deriving DecidableEq, Repr

/-- `Route` from `models/route.py`. -/
structure Route where
  vehicle : Vehicle
  stops : List RouteStop := []
  day : Option String := none
  total_distance_km : ℚ := 0
  total_duration_minutes : ℚ := 0
  total_load_cbm : ℚ := 0
  depot_departure : Option ℚ := none
  depot_return : Option ℚ := none
deriving DecidableEq, Repr

/-- Re-number the `sequence` fields after a positional insert or a removal. -/
def resequence (stops : List RouteStop) : List RouteStop :=
  stops.mapIdx (fun i s => { s with sequence := i })

/-- `Route.add_stop`: append (or positionally insert, Python `list.insert`
clamps an out-of-range position to the end) and accumulate the load. -/
def Route.add_stop (r : Route) (store : Store) (position : Option ℕ := none) : Route :=
  let stop : RouteStop := { store := store, sequence := r.stops.length }
  let stops :=
    match position with
    | none => r.stops ++ [stop]
    | some p => resequence (r.stops.take p ++ [stop] ++ r.stops.drop p)
  { r with stops := stops, total_load_cbm := r.total_load_cbm + store.demand_cbm }

/-- `Route.remove_stop`: drop the first stop with the given store id (if
any), subtract its demand and re-sequence. -/
def Route.remove_stop (r : Route) (store_id : String) : Route :=
  match r.stops.findIdx? (fun s => s.store.id == store_id) with
  | none => r
  | some i =>
    let demand := ((r.stops.get? i).map (fun s => s.store.demand_cbm)).getD 0
    { r with stops := resequence (r.stops.eraseIdx i),
             total_load_cbm := r.total_load_cbm - demand }

/-- `Route.get_load_utilization`: 0 for a zero-capacity vehicle, otherwise
`load / capacity * 100`. -/
def Route.get_load_utilization (r : Route) : ℚ :=
  if r.vehicle.capacity_cbm = 0 then 0
  else r.total_load_cbm / r.vehicle.capacity_cbm * 100

/-- `Route.get_store_ids`. -/
def Route.get_store_ids (r : Route) : List String :=
  r.stops.map (fun s => s.store.id)

/-- `Route.calculate_cost`: fixed cost plus distance cost. -/
def Route.calculate_cost (r : Route) : ℚ :=
  r.vehicle.fixed_cost + r.total_distance_km * r.vehicle.cost_per_km

/-- Structured counterpart of the validator's human-readable violation
strings: one constructor per message shape in
`constraints/validator.py`. -/
inductive Violation where
  | capacityExceeded (load cap : ℚ)
  | timeWindow (storeId : String)
  | forbiddenInterval (storeId : String)
  | fleetRestriction (vehicleId storeId : String)
  | dayExclusion (storeId : String)
  | durationExceeded (duration maxDuration : ℚ)
deriving DecidableEq, Repr

/-- `Solution` from `models/solution.py`. -/
structure Solution where
  routes : List Route := []
  day : String := ""
  unserved_stores : List String := []
  total_distance_km : ℚ := 0
  total_duration_hours : ℚ := 0
  total_cost : ℚ := 0
  num_vehicles_used : ℕ := 0
  is_feasible : Bool := true
  constraint_violations : List Violation := []
deriving DecidableEq, Repr

/-- `Solution.compute_metrics` (pure version: returns the updated record). -/
def Solution.compute_metrics (s : Solution) : Solution :=
  { s with
    num_vehicles_used := s.routes.length,
    total_distance_km := (s.routes.map (fun r => r.total_distance_km)).sum,
    total_duration_hours := (s.routes.map (fun r => r.total_duration_minutes)).sum / 60,
    total_cost := (s.routes.map Route.calculate_cost).sum }

/-! ## Feasibility kernel (`constraints/validator.py`)

`ConstraintValidator` carries one configuration value,
`service_time_minutes` (default 60); it is passed below as the `svc`
argument.  `validate_route` mutates the route (timestamps, depot return,
duration); the embedded functions return the updated route. -/

/-- Body of the scheduling loop of `ConstraintValidator._check_time_windows`
(lines 67..107): walks the stops, computing arrival (with the 5-minute
fallback for missing time-matrix entries), the time-window check, the
wait clamp, and the departure.  Returns the rescheduled stops, the
violations in emission order, and the running clock after the last stop. -/
def scheduleStops (svc : ℚ) (day : Option String) (tm : SMatrix) :
    String → ℚ → List RouteStop → List RouteStop × List Violation × ℚ
  | _, current, [] => ([], [], current)
  | prevLocation, current, stop :: rest =>
    let travel :=
      match tm.entry? prevLocation stop.store.id with
      | some v => v
      | none => 5
    let arrival := current + travel
    let checked :=
      match stop.store.get_time_window_for_day day with
      | none => (arrival, ([] : List Violation))
      | some w =>
        let arrivalTimeOnly := todMin arrival
        let vs : List Violation :=
          if w.containsT arrivalTimeOnly then [] else [Violation.timeWindow stop.store.id]
        let a1 := if arrivalTimeOnly < w.earliest then replaceHM arrival w.earliest else arrival
        (a1, vs)
    let departure := checked.1 + svc
    let stop1 := { stop with arrival_time := some checked.1, departure_time := some departure }
    let next := scheduleStops svc day tm stop.store.id departure rest
    (stop1 :: next.1, checked.2 ++ next.2.1, next.2.2)

/-- `ConstraintValidator._check_time_windows`: no-op when the route has no
stops or no depot departure; otherwise schedules all stops from the depot
("depot" is hard-coded in the source) and writes back `depot_return` and
`total_duration_minutes`. -/
def check_time_windows (svc : ℚ) (route : Route) (tm : SMatrix) : Route × List Violation :=
  if route.stops.isEmpty then (route, [])
  else
    match route.depot_departure with
    | none => (route, [])
    | some t0 =>
      let r := scheduleStops svc route.day tm "depot" t0 route.stops
      ({ route with stops := r.1, depot_return := some r.2.2,
                    total_duration_minutes := r.2.2 - t0 }, r.2.1)

/-- `ConstraintValidator._check_capacity`. -/
def check_capacity (route : Route) : Bool :=
  decide (route.total_load_cbm ≤ route.vehicle.capacity_cbm)

/-- `ConstraintValidator._check_forbidden_intervals` (on the rescheduled
route: only stops with an arrival time are checked). -/
def check_forbidden_intervals (route : Route) : List Violation :=
  (route.stops.map (fun stop =>
    match stop.arrival_time with
    | none => []
    | some a =>
      stop.store.forbidden_intervals.filterMap (fun f =>
        if f.conflicts_with (todMin a) then some (Violation.forbiddenInterval stop.store.id)
        else none))).flatten

/-- `ConstraintValidator._check_fleet_restrictions`. -/
def check_fleet_restrictions (route : Route) : List Violation :=
  route.stops.filterMap (fun stop =>
    if route.vehicle.can_serve_store stop.store.id then none
    else some (Violation.fleetRestriction route.vehicle.id stop.store.id))

/-- `ConstraintValidator._check_day_exclusions`. -/
def check_day_exclusions (route : Route) : List Violation :=
  match route.day with
  | none => []
  | some d =>
    route.stops.filterMap (fun stop =>
      if stop.store.is_day_allowed d then none
      else some (Violation.dayExclusion stop.store.id))

/-- `ConstraintValidator._check_max_duration`. -/
def check_max_duration (route : Route) : Bool :=
  decide (route.total_duration_minutes ≤ route.vehicle.max_route_duration_hours * 60)

/-- `ConstraintValidator.validate_route`: runs the six checks in order,
accumulating violations (the `_dm` parameter mirrors the unused
`distance_matrix` parameter of the source).  Returns the rescheduled
route, the validity flag, and the violation list. -/
def validate_route (svc : ℚ) (route : Route) (_dm tm : SMatrix) :
    Route × Bool × List Violation :=
  let capV : List Violation :=
    if check_capacity route then []
    else [Violation.capacityExceeded route.total_load_cbm route.vehicle.capacity_cbm]
  let tw := check_time_windows svc route tm
  let route1 := tw.1
  let fbV := check_forbidden_intervals route1
  let flV := check_fleet_restrictions route1
  let dayV := check_day_exclusions route1
  let durV : List Violation :=
    if check_max_duration route1 then []
    else [Violation.durationExceeded route1.total_duration_minutes
            (route1.vehicle.max_route_duration_hours * 60)]
  let viols := capV ++ tw.2 ++ fbV ++ flV ++ dayV ++ durV
  (route1, viols.isEmpty, viols)

/-! ## Base solver helpers (`solvers/base_solver.py`) -/

/-- Distance (or time) of the chain `prev -> x1 -> ... -> xn -> depot` with
the `get(..., 0)` defaulting lookups of `_calculate_route_distance` /
`_calculate_route_time`. -/
def chainGetD0 (m : SMatrix) (depot : String) : String → List String → ℚ
  | prev, [] => m.getD0 prev depot
  | prev, x :: rest => m.getD0 prev x + chainGetD0 m depot x rest

/-- `BaseSolver._calculate_route_distance`. -/
def calculate_route_distance (dm : SMatrix) (depot_id : String) (route : Route) : ℚ :=
  if route.stops.isEmpty then 0
  else chainGetD0 dm depot_id depot_id route.get_store_ids

/-- `BaseSolver._calculate_route_time` (0 for an empty route or an empty
time matrix). -/
def calculate_route_time (tm : SMatrix) (depot_id : String) (route : Route) : ℚ :=
  if route.stops.isEmpty || tm.isEmpty then 0
  else chainGetD0 tm depot_id depot_id route.get_store_ids

/-- `BaseSolver._update_route_metrics`: refreshes `total_distance_km`, and
(for a non-empty route) `total_duration_minutes` as travel time (matrix, or
the 40 km/h estimate when the time matrix is empty) plus the per-store
service times. -/
def update_route_metrics (dm tm : SMatrix) (depot_id : String) (route : Route) : Route :=
  let dist := calculate_route_distance dm depot_id route
  let route1 := { route with total_distance_km := dist }
  if route.stops.isEmpty then route1
  else
    let total_service_time := (route.stops.map (fun s => s.store.service_time_minutes)).sum
    let travel_time :=
      if tm.isEmpty then dist / 40 * 60
      else calculate_route_time tm depot_id route1
    { route1 with total_duration_minutes := travel_time + total_service_time }

/-- `BaseSolver._create_solution`: update each route's metrics, then compute
the solution-level aggregates. -/
def create_solution (dm tm : SMatrix) (depot_id : String) (routes : List Route)
    (day : String) : Solution :=
  Solution.compute_metrics
    { routes := routes.map (update_route_metrics dm tm depot_id), day := day }

/-! ## Clarke-Wright solver (`solvers/clarke_wright.py`)

`ClarkeWrightSolver` uses a `ConstraintValidator()` with the default
`service_time_minutes = 60`; the functions below take it as `svc` and
`clarke_wright_solve` instantiates it with 60. -/

/-- `ClarkeWrightSolver._find_compatible_vehicle`: first vehicle (in fleet
order) that may serve the store and fits its lone demand (the `_day`
parameter is present but unused in the source). -/
def find_compatible_vehicle (vehicles : List Vehicle) (store : Store) (_day : String) :
    Option Vehicle :=
  vehicles.find? (fun v => v.can_serve_store store.id && v.can_fit_demand store.demand_cbm)

/-- `ClarkeWrightSolver._create_initial_routes`: one seed route per store
with a compatible vehicle; stores without one are skipped (`continue`). -/
def create_initial_routes (vehicles : List Vehicle) (dm tm : SMatrix) (depot_id : String)
    (stores : List Store) (day : String) (start_time : ℚ) : List Route :=
  stores.filterMap (fun store =>
    match find_compatible_vehicle vehicles store day with
    | none => none
    | some vehicle =>
      let route : Route := { vehicle := vehicle, day := some day,
                             depot_departure := some start_time }
      some (update_route_metrics dm tm depot_id (route.add_stop store)))

/-- A savings entry `(i, j, s)` of `_calculate_savings`: route indices into
the seed list plus the savings value. -/
def SavingsEntry : Type := ℕ × ℕ × ℚ

/-- The savings value of `_calculate_savings` for seed routes `ri`, `rj`:
`d(depot, last_i) + d(depot, first_j) - d(last_i, first_j)` with
`get(..., 0)` lookups. -/
def savingsOf (dm : SMatrix) (depot_id : String) (last_i first_j : String) : ℚ :=
  dm.getD0 depot_id last_i + dm.getD0 depot_id first_j - dm.getD0 last_i first_j

/-- The unsorted savings list of `_calculate_savings`: all pairs `i < j` of
seed-route indices with the same vehicle id, both non-empty, and strictly
positive savings, in the nested-loop order of the source. -/
def savingsUnsorted (dm : SMatrix) (depot_id : String) (routes : List Route) :
    List SavingsEntry :=
  ((List.range routes.length).flatMap (fun i =>
    ((List.range routes.length).filter (fun j => i < j)).map (fun j => (i, j)))).filterMap
    (fun p =>
      match routes.get? p.1, routes.get? p.2 with
      | some route_i, some route_j =>
        if route_i.vehicle.id ≠ route_j.vehicle.id then none
        else
          match (route_i.get_store_ids).getLast?, (route_j.get_store_ids).head? with
          | some last_i, some first_j =>
            let savings := savingsOf dm depot_id last_i first_j
            if 0 < savings then some (p.1, p.2, savings) else none
          | _, _ => none
      | _, _ => none)

/-- `ClarkeWrightSolver._calculate_savings`: the positive-savings pairs
sorted by savings descending (Python's `list.sort` is stable, as is
`List.insertionSort`). -/
def calculate_savings (dm : SMatrix) (depot_id : String) (routes : List Route) :
    List SavingsEntry :=
  List.insertionSort (fun a b => b.2.2 ≤ a.2.2) (savingsUnsorted dm depot_id routes)

/-- `ClarkeWrightSolver._merge_two_routes`: a fresh route with `route1`'s
vehicle, day and depot departure, all stops of `route1` then of `route2`
(re-added via `add_stop`), metrics refreshed. -/
def merge_two_routes (dm tm : SMatrix) (depot_id : String) (route1 route2 : Route) : Route :=
  let merged : Route := { vehicle := route1.vehicle, day := route1.day,
                          depot_departure := route1.depot_departure }
  let merged := route1.stops.foldl (fun r stop => r.add_stop stop.store) merged
  let merged := route2.stops.foldl (fun r stop => r.add_stop stop.store) merged
  update_route_metrics dm tm depot_id merged

/-- `ClarkeWrightSolver._can_merge_routes`: same vehicle id, combined load
within capacity, and the candidate merged route passes `validate_route`
(the `_day` parameter is present but unused in the source). -/
def can_merge_routes (svc : ℚ) (dm tm : SMatrix) (depot_id : String) (_day : String)
    (route1 route2 : Route) : Bool :=
  if route1.vehicle.id ≠ route2.vehicle.id then false
  else if route1.vehicle.capacity_cbm < route1.total_load_cbm + route2.total_load_cbm then false
  else (validate_route svc (merge_two_routes dm tm depot_id route1 route2) dm tm).2.1

/-- The `active_routes` dict of `_merge_routes`, keyed by seed index. -/
def ActiveRoutes : Type := List (ℕ × Route)

instance : Membership (ℕ × Route) ActiveRoutes :=
  inferInstanceAs (Membership (ℕ × Route) (List (ℕ × Route)))

/-- `active_routes[i]` lookup. -/
def ActiveRoutes.findKey (active : ActiveRoutes) (k : ℕ) : Option Route :=
  (active.find? (fun p => p.1 = k)).map (fun p => p.2)

/-- `active_routes[i] = merged` (keys are unique; replacement keeps the
insertion position, as in a Python dict). -/
def ActiveRoutes.setKey (active : ActiveRoutes) (k : ℕ) (v : Route) : ActiveRoutes :=
  active.map (fun p => if p.1 = k then (k, v) else p)

/-- `del active_routes[j]`. -/
def ActiveRoutes.dropKey (active : ActiveRoutes) (k : ℕ) : ActiveRoutes :=
  active.filter (fun p => p.1 ≠ k)

/-- One iteration of the merge loop of `_merge_routes`: skip when either
index was already retired, otherwise merge `j` into `i` when feasible.  The
second component records the savings entries whose merge was applied. -/
def merge_step (svc : ℚ) (dm tm : SMatrix) (depot_id : String) (day : String)
    (state : ActiveRoutes × List SavingsEntry) (e : SavingsEntry) :
    ActiveRoutes × List SavingsEntry :=
  match state.1.findKey e.1, state.1.findKey e.2.1 with
  | some route_i, some route_j =>
    if can_merge_routes svc dm tm depot_id day route_i route_j then
      ((state.1.setKey e.1 (merge_two_routes dm tm depot_id route_i route_j)).dropKey e.2.1,
        state.2 ++ [e])
    else state
  | _, _ => state

/-- The merge loop of `_merge_routes` over the sorted savings list,
returning the surviving routes (dict value order) and the list of applied
savings entries (in application order). -/
def merge_routes_fold (svc : ℚ) (dm tm : SMatrix) (depot_id : String) (day : String)
    (routes : List Route) (savings : List SavingsEntry) :
    ActiveRoutes × List SavingsEntry :=
  savings.foldl (merge_step svc dm tm depot_id day) (routes.enum, [])

/-- `ClarkeWrightSolver._merge_routes`: the surviving routes after the merge
loop. -/
def merge_routes (svc : ℚ) (dm tm : SMatrix) (depot_id : String) (day : String)
    (routes : List Route) (savings : List SavingsEntry) : List Route :=
  (merge_routes_fold svc dm tm depot_id day routes savings).1.map (fun p => p.2)

/-! ### 2-opt (`ClarkeWrightSolver._two_opt_improve`) -/

/-- The candidate route of one 2-opt move: stops
`route.stops[:i] + route.stops[i:j+1][::-1] + route.stops[j+1:]` rebuilt on
a fresh route (vehicle, day, depot departure copied) with refreshed
metrics. -/
def two_opt_candidate (dm tm : SMatrix) (depot_id : String) (route : Route) (i j : ℕ) : Route :=
  let new_stops :=
    route.stops.take i ++ ((route.stops.drop i).take (j + 1 - i)).reverse
      ++ route.stops.drop (j + 1)
  let nr : Route := { vehicle := route.vehicle, day := route.day,
                      depot_departure := route.depot_departure }
  update_route_metrics dm tm depot_id
    (new_stops.foldl (fun r stop => r.add_stop stop.store) nr)

/-- The `(i, j)` scan order of `_two_opt_improve`:
`i in range(1, n - 2)`, `j in range(i + 1, n)`. -/
def two_opt_pairs (n : ℕ) : List (ℕ × ℕ) :=
  (((List.range (n - 2)).drop 1).map (fun i =>
    ((List.range n).drop (i + 1)).map (fun j => (i, j)))).flatten

/-- One pass of the 2-opt `while` loop: the first candidate (in scan order)
that strictly lowers `total_distance_km` and passes `validate_route`. -/
def two_opt_find (svc : ℚ) (dm tm : SMatrix) (depot_id : String) (route : Route) :
    Option Route :=
  ((two_opt_pairs route.stops.length).map (fun p =>
    two_opt_candidate dm tm depot_id route p.1 p.2)).find?
    (fun c =>
      decide (c.total_distance_km < route.total_distance_km)
        && (validate_route svc c dm tm).2.1)

/-- Accepting a 2-opt move: the source writes back only `stops`,
`total_distance_km` and `total_duration_minutes`. -/
def two_opt_apply (route c : Route) : Route :=
  { route with stops := c.stops, total_distance_km := c.total_distance_km,
               total_duration_minutes := c.total_duration_minutes }

/-- The bounded improvement loop (`max_iterations = 100` passes). -/
def two_opt_loop (svc : ℚ) (dm tm : SMatrix) (depot_id : String) :
    ℕ → Route → Route
  | 0, route => route
  | fuel + 1, route =>
    match two_opt_find svc dm tm depot_id route with
    | none => route
    | some c => two_opt_loop svc dm tm depot_id fuel (two_opt_apply route c)

/-- `ClarkeWrightSolver._two_opt_improve`: no-op below 4 stops, otherwise at
most 100 improving passes. -/
def two_opt_improve (svc : ℚ) (dm tm : SMatrix) (depot_id : String) (route : Route) : Route :=
  if route.stops.length < 4 then route
  else two_opt_loop svc dm tm depot_id 100 route

/-- `ClarkeWrightSolver.solve`: day filter, seed routes, savings, merges,
2-opt, solution assembly, and the final validation sweep (which reschedules
the routes in place and accumulates their violations). -/
def clarke_wright_solve (stores : List Store) (vehicles : List Vehicle) (dm tm : SMatrix)
    (depot_id : String) (day : String) (start_time : ℚ) : Solution :=
  let available_stores := stores.filter (fun s => s.is_day_allowed day)
  if available_stores.isEmpty then
    { routes := [], day := day, unserved_stores := stores.map (fun s => s.id) }
  else
    let routes0 := create_initial_routes vehicles dm tm depot_id available_stores day start_time
    let savings := calculate_savings dm depot_id routes0
    let routes1 := merge_routes 60 dm tm depot_id day routes0 savings
    let routes2 := routes1.map (two_opt_improve 60 dm tm depot_id)
    let sol := create_solution dm tm depot_id routes2 day
    let validated := sol.routes.map (fun r => validate_route 60 r dm tm)
    { sol with
      routes := validated.map (fun v => v.1),
      is_feasible := sol.is_feasible && validated.all (fun v => v.2.1),
      constraint_violations :=
        sol.constraint_violations ++ (validated.map (fun v => v.2.2)).flatten }

/-! ## ALNS solver (`solvers/alns_solver.py`)

The solver draws from Python's process-global `random` module.  The
embedded functions take the drawn data explicitly: `_apply_destroy` takes
the shuffled stop list that `random.shuffle` would produce,
`_select_operator` takes the uniform draw, the acceptance step takes the
`random.random()` draw, and `math.exp` is abstracted as a function
argument. -/

/-- The parameter list of `ALNSSolver.solve` (source line 53).  Note the
absence of any RNG-seed parameter. -/
def alns_solve_params : List String :=
  ["self", "day", "start_time", "max_iterations", "**kwargs"]

/-- The parameter list of `BaseSolver.__init__`, the constructor signature
shared by all solvers including `ALNSSolver`.  Note the absence of any
RNG-seed parameter. -/
def base_solver_init_params : List String :=
  ["self", "stores", "vehicles", "distance_matrix", "time_matrix", "depot_id"]

/-- Total number of visits currently in the route set:
`sum(len(r.stops) for r in routes)`. -/
def total_visits (routes : List Route) : ℕ :=
  (routes.map (fun r => r.stops.length)).sum

/-- The removal count of `ALNSSolver._apply_destroy`:
`max(1, int(total * 0.3))` with `destruction_rate = 0.3`.  Python's
`int(total * 0.3)` truncates; on exact arithmetic it is `⌊3 n / 10⌋`
(the float product `n * 0.3` rounds to a value with the same floor for
every list length a Python process can hold). -/
def num_to_remove (n : ℕ) : ℕ :=
  max 1 (3 * n / 10)

/-- `l[i] = f l[i]`, modelling an in-place update of one route. -/
def listModify {α : Type} : List α → ℕ → (α → α) → List α
  | [], _, _ => []
  | x :: xs, 0, f => f x :: xs
  | x :: xs, n + 1, f => x :: listModify xs n f

/-- The stop pool `[(route, stop) for route in routes for stop in route.stops]`
with routes identified by their index. -/
def all_stops_of (routes : List Route) : List (ℕ × RouteStop) :=
  (routes.enum.map (fun p => p.2.stops.map (fun stop => (p.1, stop)))).flatten

/-- `ALNSSolver._random_removal`: remove the first
`min(num_to_remove, len(all_stops))` entries of the shuffled pool from
their routes, collecting the removed stores (the source appends to
`removed` unconditionally). -/
def random_removal (routes : List Route) (shuffled : List (ℕ × RouteStop)) (k : ℕ) :
    List Route × List Store :=
  (shuffled.take k).foldl
    (fun acc p =>
      (listModify acc.1 p.1 (fun r => r.remove_stop p.2.store.id),
        acc.2 ++ [p.2.store]))
    (routes, [])

/-- `ALNSSolver._time_based_removal`: the source comment says "group by
time window" but the body shuffles and removes exactly like
`_random_removal`. -/
def time_based_removal (routes : List Route) (shuffled : List (ℕ × RouteStop)) (k : ℕ) :
    List Route × List Store :=
  (shuffled.take k).foldl
    (fun acc p =>
      (listModify acc.1 p.1 (fun r => r.remove_stop p.2.store.id),
        acc.2 ++ [p.2.store]))
    (routes, [])

/-- `ALNSSolver._calculate_removal_saving`: the distance saved by removing
`store_id` from a route, with the `get(..., 0)` defaulting lookups and the
single / first / last / middle cases of the source. -/
def removal_saving (dm : SMatrix) (depot_id : String) (route : Route)
    (store_id : String) : ℚ :=
  let stops := route.get_store_ids
  match stops.findIdx? (fun s => s = store_id) with
  | none => 0
  | some idx =>
    if stops.length = 1 then dm.getD0 depot_id store_id * 2
    else if idx = 0 then
      dm.getD0 depot_id store_id + dm.getD0 store_id ((stops.get? 1).getD "")
        - dm.getD0 depot_id ((stops.get? 1).getD "")
    else if idx = stops.length - 1 then
      dm.getD0 ((stops.get? (stops.length - 2)).getD "") store_id
        + dm.getD0 store_id depot_id
        - dm.getD0 ((stops.get? (stops.length - 2)).getD "") depot_id
    else
      dm.getD0 ((stops.get? (idx - 1)).getD "") store_id
        + dm.getD0 store_id ((stops.get? (idx + 1)).getD "")
        - dm.getD0 ((stops.get? (idx - 1)).getD "") ((stops.get? (idx + 1)).getD "")

/-- One scan of `_worst_removal`: the stop with the strictly largest
removal saving (first wins on ties), as `(saving, route index, store)`. -/
def worst_scan (dm : SMatrix) (depot_id : String) (routes : List Route) :
    Option (ℚ × ℕ × Store) :=
  routes.enum.foldl
    (fun best p =>
      p.2.stops.foldl
        (fun b stop =>
          let saving := removal_saving dm depot_id p.2 stop.store.id
          match b with
          | none => some (saving, p.1, stop.store)
          | some bb => if bb.1 < saving then some (saving, p.1, stop.store) else b)
        best)
    none

/-- `ALNSSolver._worst_removal`: `k` greedy re-scans, each removing the
stop with the largest saving; stops early (`break`) when nothing is left. -/
def worst_removal (dm : SMatrix) (depot_id : String) :
    List Route → ℕ → List Route × List Store
  | routes, 0 => (routes, [])
  | routes, k + 1 =>
    match worst_scan dm depot_id routes with
    | none => (routes, [])
    | some best =>
      let routes2 := listModify routes best.2.1 (fun r => r.remove_stop best.2.2.id)
      let rest := worst_removal dm depot_id routes2 k
      (rest.1, best.2.2 :: rest.2)

/-- `ALNSSolver._shaw_removal`: similarity `d(seed, s) + 10 * |Δdemand|`
to a randomly chosen seed stop (passed as the explicit draw `seed`), most
similar first (stable ascending sort), removing up to `k` stops that are
still on their route. -/
def shaw_removal (dm : SMatrix) (routes : List Route) (seed : ℕ × RouteStop) (k : ℕ) :
    List Route × List Store :=
  let all_stops := all_stops_of routes
  if all_stops.isEmpty then (routes, [])
  else
    let seed_store := seed.2.store
    let similarities := all_stops.map (fun p =>
      (p, dm.getD0 seed_store.id p.2.store.id
        + |seed_store.demand_cbm - p.2.store.demand_cbm| * 10))
    let sorted := List.insertionSort (fun a b => a.2 ≤ b.2) similarities
    ((sorted.take k).foldl
      (fun acc q =>
        match acc.1.get? q.1.1 with
        | none => acc
        | some route =>
          if route.get_store_ids.contains q.1.2.store.id then
            (listModify acc.1 q.1.1 (fun r => r.remove_stop q.1.2.store.id),
              acc.2 ++ [q.1.2.store])
          else acc)
      (routes, []))

/-- `ALNSSolver._apply_destroy` (the deep copy of the routes is the
identity in this pure embedding).  `shuffled` is the permutation of the
stop pool produced by `random.shuffle` (used by "random" and
"time_based"), `seed` is the `random.choice` draw of "shaw"; an unknown
operator leaves the routes untouched with nothing removed. -/
def apply_destroy (routes : List Route) (operator : String)
    (shuffled : List (ℕ × RouteStop)) (seed : ℕ × RouteStop)
    (dm : SMatrix) (depot_id : String) : List Route × List Store :=
  let k := num_to_remove (total_visits routes)
  if operator = "random" then random_removal routes shuffled k
  else if operator = "worst" then worst_removal dm depot_id routes k
  else if operator = "shaw" then shaw_removal dm routes seed k
  else if operator = "time_based" then time_based_removal routes shuffled k
  else (routes, [])

/-- Cumulative scan of `ALNSSolver._select_operator`: return the first
operator whose cumulative weight reaches the draw `r`. -/
def select_scan : List (String × ℚ) → ℚ → ℚ → Option String
  | [], _, _ => none
  | (op, w) :: rest, cumulative, r =>
    if r ≤ cumulative + w then some op else select_scan rest (cumulative + w) r

/-- `ALNSSolver._select_operator` given the draw
`r = random.uniform(0, total)`; falls back to the first key. -/
def select_operator (weights : List (String × ℚ)) (r : ℚ) : String :=
  match select_scan weights 0 r with
  | some op => op
  | none => ((weights.map (fun p => p.1)).headD "")

/-- `ALNSSolver._calculate_cost`:
`distance + 1000 * vehicles_used + 500 * Σ |utilization - 85|`. -/
def alns_calculate_cost (solution : Solution) : ℚ :=
  solution.total_distance_km * 1 + (solution.num_vehicles_used : ℚ) * 1000
    + ((solution.routes.map (fun r => |r.get_load_utilization - 85|)).sum) * 500

/-- The mutable state of the ALNS main loop (source lines 73..143). -/
structure AlnsState where
  current_solution : Solution
  best_solution : Solution
  temperature : ℚ
  destroy_weights : List (String × ℚ)
  repair_weights : List (String × ℚ)
  iteration_without_improvement : ℕ
deriving Repr

/-- `weights[op] += score`. -/
def weight_bump (weights : List (String × ℚ)) (op : String) (score : ℚ) :
    List (String × ℚ) :=
  weights.map (fun p => if p.1 = op then (p.1, p.2 + score) else p)

/-- One ALNS iteration body (source lines 87..139): operator selection by
roulette (draws `d1`, `d2`), the acceptance decision on the repaired
candidate `new_solution` (draw `r`, with `math.exp` abstracted as `expFn`),
the weight update, and the cooling step
`T = max(temperature_end, 0.99 * T)` with `temperature_end = 1`. -/
def alns_iteration (expFn : ℚ → ℚ) (state : AlnsState) (d1 d2 : ℚ)
    (new_solution : Solution) (r : ℚ) : AlnsState :=
  let destroy_op := select_operator state.destroy_weights d1
  let repair_op := select_operator state.repair_weights d2
  let current_cost := alns_calculate_cost state.current_solution
  let new_cost := alns_calculate_cost new_solution
  let best_cost := alns_calculate_cost state.best_solution
  let step : AlnsState × Bool × ℚ :=
    if new_cost < best_cost then
      ({ state with best_solution := new_solution, current_solution := new_solution,
                    iteration_without_improvement := 0 }, true, 10)
    else if new_cost < current_cost then
      ({ state with current_solution := new_solution,
                    iteration_without_improvement :=
                      state.iteration_without_improvement + 1 }, true, 5)
    else
      let delta := new_cost - current_cost
      let probability := expFn (-delta / state.temperature)
      if r < probability then
        ({ state with current_solution := new_solution,
                      iteration_without_improvement :=
                        state.iteration_without_improvement + 1 }, true, 1)
      else
        ({ state with iteration_without_improvement :=
                        state.iteration_without_improvement + 1 }, false, 0)
  let state1 := step.1
  let state2 :=
    if step.2.1 then
      { state1 with destroy_weights := weight_bump state1.destroy_weights destroy_op step.2.2,
                    repair_weights := weight_bump state1.repair_weights repair_op step.2.2 }
    else state1
  { state2 with temperature := max 1 ((99 / 100) * state2.temperature) }

/-- One iteration's worth of external inputs: the two operator-selection
draws, the candidate solution that destroy + repair deterministically
produce from the iteration's shuffle/choice draws, and the acceptance
draw. -/
def AlnsDraws : Type := ℚ × ℚ × Solution × ℚ

/-- The ALNS main loop over an explicit stream of per-iteration inputs,
with the 500-iteration stagnation break checked at the end of each
iteration as in the source. -/
def alns_loop (expFn : ℚ → ℚ) : AlnsState → List AlnsDraws → AlnsState
  | state, [] => state
  | state, d :: rest =>
    let state1 := alns_iteration expFn state d.1 d.2.1 d.2.2.1 d.2.2.2
    if 500 < state1.iteration_without_improvement then state1
    else alns_loop expFn state1 rest

/-! ## Weekly consolidation statistics
(`consolidation/multiday_optimizer.py`) -/

/-- The per-store record built by `MultiDayOptimizer._aggregate_weekly_demand`. -/
structure StoreInfo where
  store : Store
  total_demand : ℚ
  available_days : List String
  time_windows : List (String × TimeWindow)
  preferred_days : List String
deriving Repr

/-- `MultiDayOptimizer.WEEKDAYS`. -/
def WEEKDAYS : List String := ["Mon", "Tue", "Wed", "Thu", "Fri"]

/-- Loop body of `MultiDayOptimizer._aggregate_weekly_demand`:
`weekly_demand[store.id] = {...}`. -/
def aggregate_step (weekly_demand : List (String × StoreInfo)) (store : Store) :
    List (String × StoreInfo) :=
  let available_days := WEEKDAYS.filter store.is_day_allowed
  let time_windows := available_days.filterMap (fun day =>
    (store.get_time_window_for_day (some day)).map (fun tw => (day, tw)))
  dictPut weekly_demand store.id
    { store := store, total_demand := store.demand_cbm,
      available_days := available_days, time_windows := time_windows,
      preferred_days := store.preferred_days }

/-- `MultiDayOptimizer._aggregate_weekly_demand`: a dict keyed by store id
(last write wins for duplicate ids). -/
def aggregate_weekly_demand (stores : List Store) : List (String × StoreInfo) :=
  stores.foldl aggregate_step []

/-- Python's `round(q, 2)` on exact values (round half to even at two
decimals). -/
def pythonRound2 (q : ℚ) : ℚ :=
  let m := q * 100
  let f : ℤ := ⌊m⌋
  let r := m - (f : ℚ)
  if r < 1 / 2 then (f : ℚ) / 100
  else if 1 / 2 < r then ((f + 1 : ℤ) : ℚ) / 100
  else if f % 2 = 0 then (f : ℚ) / 100
  else ((f + 1 : ℤ) : ℚ) / 100

/-- The statistics record returned by
`MultiDayOptimizer._calculate_consolidation_stats`. -/
structure ConsolidationStats where
  total_stores : ℕ
  stores_assigned : ℕ
  consolidation_rate_percent : ℚ
  baseline_trips : ℕ
  optimized_trips : ℕ
  trip_reduction_percent : ℚ
  stores_per_day : List (String × ℕ)
deriving Repr

/-- `MultiDayOptimizer._calculate_consolidation_stats`. -/
def calculate_consolidation_stats (day_assignments : List (String × List Store))
    (weekly_demand : List (String × StoreInfo)) : ConsolidationStats :=
  let total_stores := weekly_demand.length
  let assigned_stores := (day_assignments.map (fun p => p.2.length)).sum
  let consolidated_count :=
    (weekly_demand.filter (fun p => 1 < p.2.available_days.length)).length
  let consolidation_rate : ℚ :=
    if 0 < total_stores then (consolidated_count : ℚ) / (total_stores : ℚ) * 100 else 0
  let baseline_trips := total_stores
  let optimized_trips : ℕ := (day_assignments.map (fun p => p.2.length)).sum
  let trip_reduction : ℚ :=
    if 0 < baseline_trips then
      (((baseline_trips : ℚ) - (optimized_trips : ℚ)) / (baseline_trips : ℚ)) * 100
    else 0
  { total_stores := total_stores,
    stores_assigned := assigned_stores,
    consolidation_rate_percent := pythonRound2 consolidation_rate,
    baseline_trips := baseline_trips,
    optimized_trips := optimized_trips,
    trip_reduction_percent := pythonRound2 trip_reduction,
    stores_per_day := day_assignments.map (fun p => (p.1, p.2.length)) }

/-! ## Test fixtures for the claim witnesses and counterexamples -/

/-- A route whose vehicle has zero capacity. -/
def routeCap0 : Route :=
  { vehicle := { id := "v0", capacity_cbm := 0 }, total_load_cbm := 5 }

/-- A route whose vehicle has capacity 50 and load 5. -/
def routeCap50 : Route :=
  { vehicle := { id := "v50", capacity_cbm := 50 }, total_load_cbm := 5 }

/-- A five-stop route used as the C3 test fixture (5 total visits). -/
def fiveStopRoute : Route :=
  { vehicle := { id := "vF", capacity_cbm := 100 },
    stops := [{ store := { id := "a1", demand_cbm := 1 } },
              { store := { id := "a2", demand_cbm := 1 } },
              { store := { id := "a3", demand_cbm := 1 } },
              { store := { id := "a4", demand_cbm := 1 } },
              { store := { id := "a5", demand_cbm := 1 } }],
    total_load_cbm := 5 }

/-- The initial ALNS state of `ALNSSolver.solve` (temperature 100, all
operator weights 1) over an empty current solution. -/
def alnsState0 : AlnsState :=
  { current_solution := {}, best_solution := {}, temperature := 100,
    destroy_weights := [("random", 1), ("worst", 1), ("shaw", 1), ("time_based", 1)],
    repair_weights := [("greedy", 1), ("regret2", 1), ("regret3", 1)],
    iteration_without_improvement := 0 }

/-- The S3 store: time window 10:00-11:00 (600..660 minutes). -/
def storeS3 : Store :=
  { id := "c", demand_cbm := 5, time_windows := [{ earliest := 600, latest := 660 }] }

/-- The S3 time matrix: depot to `c` in 10 minutes. -/
def tmS3 : SMatrix := [("depot", [("c", 10)])]

/-- The S3 route: one stop, depot departure 08:00 (480 minutes). -/
def routeS3 : Route :=
  { vehicle := { id := "v1", capacity_cbm := 10 }, day := some "Mon",
    depot_departure := some 480, stops := [{ store := storeS3 }],
    total_load_cbm := 5 }

/-- A store with a 30-minute per-customer service time. -/
def store30 : Store := { id := "e", demand_cbm := 1, service_time_minutes := 30 }

/-- A one-stop route over `store30`, depot departure 08:00. -/
def route30 : Route :=
  { vehicle := { id := "vB", capacity_cbm := 100 }, day := some "Mon",
    depot_departure := some 480, stops := [{ store := store30 }],
    total_load_cbm := 1 }

/-- The scheduled stop of the C5 fixture. -/
def stop30result : RouteStop :=
  { store := store30, arrival_time := some 485, departure_time := some 545,
    sequence := 0 }

/-- Two distinct stores for the C9 witness. -/
def storeW1 : Store := { id := "w1", demand_cbm := 3 }

/-- Second distinct store for the C9 witness. -/
def storeW2 : Store := { id := "w2", demand_cbm := 4 }

instance : IsTotal SavingsEntry (fun a b => b.2.2 ≤ a.2.2) :=
  ⟨fun a b => le_total b.2.2 a.2.2⟩

instance : IsTrans SavingsEntry (fun a b => b.2.2 ≤ a.2.2) :=
  ⟨fun _ _ _ hab hbc => le_trans hbc hab⟩

/-- First S6 store (spec scenario S6). -/
def storeC1w : Store := { id := "c1", demand_cbm := 2 }

/-- Second S6 store. -/
def storeC2w : Store := { id := "c2", demand_cbm := 2 }

/-- The S6 vehicle. -/
def vehS6 : Vehicle := { id := "v1", capacity_cbm := 10 }

/-- The S6 distance matrix: `d(depot,c1) = d(depot,c2) = 10`, `d(c1,c2) = 2`. -/
def dmS6 : SMatrix :=
  [("depot", [("c1", 10), ("c2", 10)]),
   ("c1", [("depot", 10), ("c2", 2)]),
   ("c2", [("depot", 10), ("c1", 2)])]

/-- The two S6 seed routes (one store each, same vehicle). -/
def routesS6 : List Route :=
  [{ vehicle := vehS6, day := some "Mon", depot_departure := some 480,
     stops := [{ store := storeC1w }], total_load_cbm := 2,
     total_distance_km := 20, total_duration_minutes := 90 },
   { vehicle := vehS6, day := some "Mon", depot_departure := some 480,
     stops := [{ store := storeC2w }], total_load_cbm := 2,
     total_distance_km := 20, total_duration_minutes := 90 }]

/-- 2-opt fixture stores. -/
def storeTA : Store := { id := "a", demand_cbm := 1 }

/-- 2-opt fixture store b. -/
def storeTB : Store := { id := "b", demand_cbm := 1 }

/-- 2-opt fixture store c2o. -/
def storeTC : Store := { id := "c2o", demand_cbm := 1 }

/-- 2-opt fixture store d. -/
def storeTD : Store := { id := "d", demand_cbm := 1 }

/-- 2-opt fixture distance matrix: visiting a, b, c2o, d in order is
cheaper (23 km) than the fixture route order a, c2o, b, d (31 km). -/
def dm2opt : SMatrix :=
  [("depot", [("a", 10), ("b", 10), ("c2o", 10), ("d", 10)]),
   ("a", [("depot", 10), ("b", 1), ("c2o", 5), ("d", 9)]),
   ("b", [("depot", 10), ("a", 1), ("c2o", 1), ("d", 5)]),
   ("c2o", [("depot", 10), ("a", 5), ("b", 1), ("d", 1)]),
   ("d", [("depot", 10), ("a", 9), ("b", 5), ("c2o", 1)])]

/-- 2-opt fixture vehicle. -/
def vehTwoOpt : Vehicle := { id := "vT", capacity_cbm := 100 }

/-- 2-opt fixture route a, c2o, b, d with distance 31. -/
def routeTwoOpt : Route :=
  { vehicle := vehTwoOpt, day := some "Mon", depot_departure := some 480,
    stops := [{ store := storeTA }, { store := storeTC }, { store := storeTB },
              { store := storeTD }],
    total_load_cbm := 4, total_distance_km := 31, total_duration_minutes := 286 }

/-- The first improving 2-opt move on the fixture: reverse `[1..2]`,
yielding a, b, c2o, d (23 km). -/
def cTwoOpt : Route := two_opt_candidate dm2opt [] "depot" routeTwoOpt 1 2

/-- The C2 store: no vehicle may serve it. -/
def storeNoVeh : Store := { id := "s1", demand_cbm := 5 }

/-- The C2 vehicle: it forbids `s1`. -/
def vehForbids : Vehicle :=
  { id := "v1", capacity_cbm := 10, forbidden_store_ids := ["s1"] }

/-! ## Claim C6 — route cost identity -/

/-- C6: for every route, `Route.calculate_cost` returns exactly
`vehicle.fixed_cost + vehicle.cost_per_km * route.total_distance_km`. -/
theorem route_cost_identity (r : Route) :
    r.calculate_cost = r.vehicle.fixed_cost + r.vehicle.cost_per_km * r.total_distance_km := by
  unfold Route.calculate_cost
  ring

/-! ## Claim C10 — total utilization computation -/

/-- C10: `Route.get_load_utilization` is total: it returns 0 when the
vehicle's `capacity_cbm` is 0 (no division by zero), and
`100 * total_load_cbm / capacity_cbm` otherwise. -/
theorem load_utilization_total (r : Route) :
    (r.vehicle.capacity_cbm = 0 → r.get_load_utilization = 0) ∧
    (r.vehicle.capacity_cbm ≠ 0 →
      r.get_load_utilization = 100 * r.total_load_cbm / r.vehicle.capacity_cbm) := by
  constructor
  · intro h
    simp [Route.get_load_utilization, h]
  · intro h
    simp only [Route.get_load_utilization, if_neg h]
    ring

/-- Witness for C10 at two concrete routes (zero and non-zero capacity). -/
theorem load_utilization_total_witness :
    routeCap0.get_load_utilization = 0 ∧
    routeCap50.get_load_utilization
      = 100 * routeCap50.total_load_cbm / routeCap50.vehicle.capacity_cbm :=
  ⟨(load_utilization_total routeCap0).1 rfl,
    (load_utilization_total routeCap50).2 (by norm_num [routeCap50])⟩

/-! ## Claim C3 — ALNS destroy removal count -/

/-- C3 counterexample: on a solution with 5 total visits the destroy step
removes `max(1, int(5 * 0.3)) = 1` customer, not `⌈0.3 * 5⌉ = 2` as the
claim states. -/
theorem destroy_count_not_ceiling :
    (apply_destroy [fiveStopRoute] "random" (all_stops_of [fiveStopRoute])
        (0, { store := { id := "a1", demand_cbm := 1 } }) [] "depot").2.length = 1 ∧
    (⌈((3 : ℚ) / 10) * ((total_visits [fiveStopRoute] : ℕ) : ℚ)⌉ : ℤ) = 2 ∧
    ((1 : ℤ) ≠ 2) := by
  refine ⟨?_, ?_, by decide⟩
  · norm_num [apply_destroy, random_removal, num_to_remove, total_visits, all_stops_of,
      fiveStopRoute, listModify, Route.remove_stop]
  · have : (total_visits [fiveStopRoute] : ℕ) = 5 := by decide
    rw [this]
    norm_num [Int.ceil_eq_iff]

/-- Length of the removal fold of `_random_removal` / `_time_based_removal`:
one store is appended per processed pool entry. -/
theorem removal_fold_length (l : List (ℕ × RouteStop)) :
    ∀ (rs : List Route) (acc : List Store),
      ((l.foldl
        (fun acc p =>
          (listModify acc.1 p.1 (fun r => r.remove_stop p.2.store.id),
            acc.2 ++ [p.2.store]))
        (rs, acc)).2).length = acc.length + l.length := by
  induction l with
  | nil => intro rs acc; simp
  | cons x xs ih =>
    intro rs acc
    simp only [List.foldl_cons]
    rw [ih]
    simp
    omega

/-- The stop pool has exactly `total_visits` entries. -/
theorem all_stops_of_length (routes : List Route) :
    (all_stops_of routes).length = total_visits routes := by
  unfold all_stops_of total_visits
  rw [List.length_flatten, List.map_map]
  have : routes.enum.map (List.length ∘ fun p : ℕ × Route =>
      p.2.stops.map (fun stop => (p.1, stop)))
      = routes.enum.map (fun p => p.2.stops.length) := by
    apply List.map_congr_left
    intro p _
    simp
  rw [this]
  have h2 : routes.enum.map (fun p => p.2.stops.length)
      = routes.map (fun r => r.stops.length) := by
    rw [show (fun p : ℕ × Route => p.2.stops.length)
          = (fun r : Route => r.stops.length) ∘ Prod.snd from rfl]
    rw [← List.map_map, List.enum_map_snd]
  rw [h2]

/-- C3 as amended: for the shuffle-based destroy operators, the destroy
step removes exactly `max(1, ⌊0.3 * total_visits⌋)` customers (Python's
`int` truncates) for every route set with at least one visit and every
shuffle of the stop pool. -/
theorem apply_destroy_removes_floor (routes : List Route)
    (shuffled : List (ℕ × RouteStop)) (seed : ℕ × RouteStop)
    (dm : SMatrix) (depot_id : String) (operator : String)
    (h1 : 1 ≤ total_visits routes)
    (h2 : List.Perm shuffled (all_stops_of routes))
    (hop : operator = "random" ∨ operator = "time_based") :
    (apply_destroy routes operator shuffled seed dm depot_id).2.length
      = max 1 (3 * total_visits routes / 10) := by
  have hlen : shuffled.length = total_visits routes :=
    h2.length_eq.trans (all_stops_of_length routes)
  have hk : max 1 (3 * total_visits routes / 10) ≤ total_visits routes := by
    have : 3 * total_visits routes / 10 ≤ total_visits routes :=
      Nat.div_le_of_le_mul (by omega)
    omega
  have hcore :
      ∀ k, k ≤ total_visits routes →
        ((shuffled.take k).foldl
          (fun acc p =>
            (listModify acc.1 p.1 (fun r => r.remove_stop p.2.store.id),
              acc.2 ++ [p.2.store]))
          (routes, ([] : List Store))).2.length = k := by
    intro k hkle
    rw [removal_fold_length]
    simp [List.length_take, hlen]
    omega
  rcases hop with hop | hop <;> subst hop
  · unfold apply_destroy
    rw [if_pos rfl]
    simp only [random_removal, num_to_remove]
    exact hcore _ hk
  · unfold apply_destroy
    rw [if_neg (by decide), if_neg (by decide), if_neg (by decide), if_pos rfl]
    simp only [time_based_removal, num_to_remove]
    exact hcore _ hk

/-- Witness for C3's amended theorem at the five-visit fixture with the
identity shuffle. -/
theorem apply_destroy_removes_floor_witness :
    1 ≤ total_visits [fiveStopRoute] ∧
    (apply_destroy [fiveStopRoute] "random" (all_stops_of [fiveStopRoute])
        (0, { store := { id := "a1", demand_cbm := 1 } }) [] "depot").2.length
      = max 1 (3 * total_visits [fiveStopRoute] / 10) :=
  ⟨by decide,
    apply_destroy_removes_floor [fiveStopRoute] (all_stops_of [fiveStopRoute])
      (0, { store := { id := "a1", demand_cbm := 1 } }) [] "depot" "random"
      (by decide) (List.Perm.refl _) (Or.inl rfl)⟩

/-! ## Claim C4 — ALNS seed input and determinism -/

/-- C4 counterexample: neither `ALNSSolver.solve` nor the solver
constructor accepts an RNG-seed parameter; the solver draws from Python's
process-global `random` module. -/
theorem alns_has_no_seed_input :
    ¬ ("seed" ∈ alns_solve_params ∨ "seed" ∈ base_solver_init_params) := by
  decide

/-- C4 as amended: the ALNS solver has no seed input (no `seed` parameter
on `solve` or on the constructor); its main loop is a deterministic
function of the initial state and the stream of per-iteration draw data
(operator draws, repaired candidate, acceptance draw, with `math.exp`
abstracted as `expFn`): two runs coincide exactly when the global-RNG
draw streams coincide. -/
theorem alns_loop_deterministic (expFn : ℚ → ℚ) (s0 : AlnsState)
    (draws1 draws2 : List AlnsDraws) (h : draws1 = draws2) :
    ("seed" ∉ alns_solve_params ∧ "seed" ∉ base_solver_init_params) ∧
    alns_loop expFn s0 draws1 = alns_loop expFn s0 draws2 :=
  ⟨⟨by decide, by decide⟩, by rw [h]⟩

/-- Witness for C4's amended determinism theorem at a concrete state and
draw stream. -/
theorem alns_loop_deterministic_witness :
    ([] : List AlnsDraws) = ([] : List AlnsDraws) ∧
    (("seed" ∉ alns_solve_params ∧ "seed" ∉ base_solver_init_params) ∧
      alns_loop (fun x => x) alnsState0 [] = alns_loop (fun x => x) alnsState0 []) :=
  ⟨rfl, alns_loop_deterministic (fun x => x) alnsState0 [] [] rfl⟩

/-! ## Claim C1 — wait clamp vs. violation emission -/

/-- C1: the scheduling pass checks the time window before applying the wait
clamp, so at spec scenario S3 (window 10:00-11:00, shift start 08:00,
travel 10 min, arrival 08:10) it emits a time-window violation for the
early arrival even though it then clamps the arrival to 10:00 and departs
at 11:00.  The claim (and scenario S3) require the clamp with no
violation; a violation was to be emitted only for an arrival after the
window's latest bound. -/
theorem early_arrival_emits_violation :
    (check_time_windows 60 routeS3 tmS3).2 = [Violation.timeWindow "c"] ∧
    (check_time_windows 60 routeS3 tmS3).1.stops.map (fun s => s.arrival_time)
      = [some 600] ∧
    (check_time_windows 60 routeS3 tmS3).1.stops.map (fun s => s.departure_time)
      = [some 660] := by
  norm_num [check_time_windows, scheduleStops, routeS3, tmS3, storeS3,
    SMatrix.entry?, dictGet, Store.get_time_window_for_day, TimeWindow.containsT,
    todMin, replaceHM, List.find?]

/-! ## Claim C5 — departure = arrival + service time -/

/-- C5 counterexample: the stop's customer has `service_time_minutes = 30`,
yet the scheduling pass departs 60 minutes after arrival (arrival 08:05 via
the 5-minute fallback, departure 09:05): the validator uses its own
`service_time_minutes` configuration, not the per-customer field. -/
theorem departure_ignores_store_service_time :
    store30.service_time_minutes = 30 ∧
    (validate_route 60 route30 [] []).1.stops.map
      (fun s => (s.arrival_time, s.departure_time)) = [(some 485, some 545)] ∧
    (545 : ℚ) ≠ 485 + 30 := by
  refine ⟨rfl, ?_, by norm_num⟩
  norm_num [validate_route, check_time_windows, scheduleStops, route30, store30,
    SMatrix.entry?, dictGet, Store.get_time_window_for_day, List.find?]

/-- Every stop scheduled by `scheduleStops` departs exactly `svc` minutes
after its (wait-adjusted) arrival. -/
theorem scheduleStops_departure (svc : ℚ) (day : Option String) (tm : SMatrix) :
    ∀ (stops : List RouteStop) (prev : String) (current : ℚ),
      ∀ stop ∈ (scheduleStops svc day tm prev current stops).1,
        stop.departure_time = stop.arrival_time.map (fun a => a + svc) ∧
          stop.arrival_time.isSome = true := by
  intro stops
  induction stops with
  | nil => intro prev current stop h; simp [scheduleStops] at h
  | cons x xs ih =>
    intro prev current stop h
    simp only [scheduleStops, List.mem_cons] at h
    rcases h with h | h
    · subst h
      simp [Option.map]
    · exact ih _ _ stop h

/-- C5 as amended: in `validate_route`'s scheduling pass, every stop's
departure timestamp equals its (wait-adjusted) arrival plus the
validator's configured `service_time_minutes` (`svc`, default 60) — a
single per-validator constant, regardless of the per-customer
`service_time_minutes` field. -/
theorem validate_route_departure_is_validator_service (svc : ℚ) (route : Route)
    (_dm tm : SMatrix) (t0 : ℚ) (i : ℕ) (stop : RouteStop)
    (h0 : route.depot_departure = some t0)
    (h1 : ((validate_route svc route _dm tm).1.stops).get? i = some stop) :
    stop.departure_time = stop.arrival_time.map (fun a => a + svc) ∧
      stop.arrival_time.isSome = true := by
  have hmem := List.get?_mem h1
  simp only [validate_route] at hmem
  unfold check_time_windows at hmem
  by_cases hempty : route.stops.isEmpty
  · simp only [hempty, if_true, reduceIte] at hmem
    rw [List.isEmpty_iff] at hempty
    rw [hempty] at hmem
    simp at hmem
  · simp only [hempty, Bool.false_eq_true, if_false, reduceIte, h0] at hmem
    exact scheduleStops_departure svc route.day tm route.stops "depot" t0 stop hmem

/-- Witness for C5's amended theorem at the concrete one-stop fixture. -/
theorem validate_route_departure_is_validator_service_witness :
    route30.depot_departure = some 480 ∧
    (stop30result.departure_time = stop30result.arrival_time.map (fun a => a + 60) ∧
      stop30result.arrival_time.isSome = true) :=
  ⟨rfl,
    validate_route_departure_is_validator_service 60 route30 [] [] 480 0 stop30result rfl
      (by norm_num [validate_route, check_time_windows, scheduleStops, route30, store30,
        stop30result, SMatrix.entry?, dictGet, Store.get_time_window_for_day, List.find?])⟩

/-! ## Claim C9 — consolidation trip statistics -/

/-- `dictPut` with a fresh key appends. -/
theorem dictPut_fresh {α : Type} (l : List (String × α)) (key : String) (v : α)
    (h : ∀ p ∈ l, p.1 ≠ key) : dictPut l key v = l ++ [(key, v)] := by
  unfold dictPut
  rw [List.find?_eq_none.mpr]
  · simp
  · intro p hp
    simp [h p hp]

/-- Keys accumulated by the aggregation fold: with pairwise-distinct store
ids that are fresh for the accumulator, each store appends its own key. -/
theorem aggregate_fold_keys (stores : List Store) :
    ∀ acc : List (String × StoreInfo),
      (∀ s ∈ stores, ∀ p ∈ acc, p.1 ≠ s.id) → (stores.map Store.id).Nodup →
      (stores.foldl aggregate_step acc).map Prod.fst
        = acc.map Prod.fst ++ stores.map Store.id := by
  induction stores with
  | nil => intro acc _ _; simp
  | cons s rest ih =>
    intro acc hfresh hnodup
    simp only [List.foldl_cons]
    have hstep : ∃ info, aggregate_step acc s = acc ++ [(s.id, info)] := by
      unfold aggregate_step
      exact ⟨_, dictPut_fresh acc s.id _ (fun p hp => hfresh s (List.mem_cons_self s rest) p hp)⟩
    obtain ⟨info, hstep⟩ := hstep
    rw [hstep]
    rw [List.map_cons, List.nodup_cons] at hnodup
    have hfresh2 : ∀ s2 ∈ rest, ∀ p ∈ acc ++ [(s.id, info)], p.1 ≠ s2.id := by
      intro s2 hs2 p hp
      rcases List.mem_append.mp hp with hp | hp
      · exact hfresh s2 (List.mem_cons_of_mem s hs2) p hp
      · simp only [List.mem_singleton] at hp
        subst hp
        intro hcontra
        simp only at hcontra
        exact hnodup.1 (hcontra ▸ List.mem_map_of_mem Store.id hs2)
    rw [ih _ hfresh2 hnodup.2]
    simp

/-- The weekly-demand dict has one entry per store when store ids are
pairwise distinct. -/
theorem aggregate_weekly_demand_length (stores : List Store)
    (hnodup : (stores.map Store.id).Nodup) :
    (aggregate_weekly_demand stores).length = stores.length := by
  have h := aggregate_fold_keys stores [] (by simp) hnodup
  unfold aggregate_weekly_demand
  have hlen := congrArg List.length h
  simpa using hlen

/-- C9: with pairwise-distinct store ids, `baseline_trips` equals the total
number of customers, `optimized_trips` equals the number of per-day
assignments summed over days, and `trip_reduction_percent` is 0 whenever
the assignment total equals the customer total (every customer assigned
exactly once). -/
theorem consolidation_stats_trips (stores : List Store)
    (day_assignments : List (String × List Store))
    (hnodup : (stores.map Store.id).Nodup) :
    (calculate_consolidation_stats day_assignments
        (aggregate_weekly_demand stores)).baseline_trips = stores.length ∧
    (calculate_consolidation_stats day_assignments
        (aggregate_weekly_demand stores)).optimized_trips
      = (day_assignments.map (fun p => p.2.length)).sum ∧
    ((day_assignments.map (fun p => p.2.length)).sum = stores.length →
      (calculate_consolidation_stats day_assignments
          (aggregate_weekly_demand stores)).trip_reduction_percent = 0) := by
  refine ⟨?_, rfl, ?_⟩
  · simp only [calculate_consolidation_stats]
    exact aggregate_weekly_demand_length stores hnodup
  · intro heq
    have hbase : (aggregate_weekly_demand stores).length = stores.length :=
      aggregate_weekly_demand_length stores hnodup
    simp only [calculate_consolidation_stats]
    rw [heq, ← hbase]
    by_cases hzero : (aggregate_weekly_demand stores).length = 0
    · simp [hzero]
      norm_num [pythonRound2]
    · rw [if_pos (Nat.pos_of_ne_zero hzero)]
      rw [sub_self]
      rw [zero_div, zero_mul]
      norm_num [pythonRound2]

/-- Witness for C9 at two stores, each assigned once (to "Mon"). -/
theorem consolidation_stats_trips_witness :
    ([storeW1, storeW2].map Store.id).Nodup ∧
    ((([("Mon", [storeW1, storeW2])] : List (String × List Store)).map
        (fun p => p.2.length)).sum = [storeW1, storeW2].length ∧
      (calculate_consolidation_stats [("Mon", [storeW1, storeW2])]
          (aggregate_weekly_demand [storeW1, storeW2])).trip_reduction_percent = 0) := by
  have hnodup : ([storeW1, storeW2].map Store.id).Nodup := by
    simp [storeW1, storeW2]
  have h := consolidation_stats_trips [storeW1, storeW2] [("Mon", [storeW1, storeW2])] hnodup
  exact ⟨hnodup, by decide, h.2.2 (by decide)⟩

/-! ## Claim C7 — savings list and merge order -/

/-- One merge-loop step either leaves the applied-entry log unchanged or
appends the current entry. -/
theorem merge_step_applied (svc : ℚ) (dm tm : SMatrix) (depot_id day : String)
    (active : ActiveRoutes) (acc : List SavingsEntry) (e : SavingsEntry) :
    (merge_step svc dm tm depot_id day (active, acc) e).2 = acc ∨
    (merge_step svc dm tm depot_id day (active, acc) e).2 = acc ++ [e] := by
  unfold merge_step
  rcases h1 : ActiveRoutes.findKey active e.1 with _ | ri
  · simp [h1]
  · rcases h2 : ActiveRoutes.findKey active e.2.1 with _ | rj
    · simp [h1, h2]
    · by_cases h : can_merge_routes svc dm tm depot_id day ri rj
      · simp [h1, h2, h]
      · simp [h1, h2, h]

/-- The applied-merge log of the merge loop is an (in-order) sublist of the
processed savings list. -/
theorem merge_fold_applied_sublist (svc : ℚ) (dm tm : SMatrix) (depot_id day : String) :
    ∀ (savings : List SavingsEntry) (active : ActiveRoutes) (acc : List SavingsEntry),
      ∃ extra,
        (savings.foldl (merge_step svc dm tm depot_id day) (active, acc)).2
          = acc ++ extra ∧ extra.Sublist savings := by
  intro savings
  induction savings with
  | nil => intro active acc; exact ⟨[], by simp, List.Sublist.refl []⟩
  | cons e rest ih =>
    intro active acc
    simp only [List.foldl_cons]
    obtain ⟨extra, hres, hsub⟩ :=
      ih (merge_step svc dm tm depot_id day (active, acc) e).1
        (merge_step svc dm tm depot_id day (active, acc) e).2
    have hres2 :
        (List.foldl (merge_step svc dm tm depot_id day)
          (merge_step svc dm tm depot_id day (active, acc) e) rest).2
          = (merge_step svc dm tm depot_id day (active, acc) e).2 ++ extra := hres
    rcases merge_step_applied svc dm tm depot_id day active acc e with hstep | hstep
    · exact ⟨extra, by rw [hres2, hstep], hsub.cons e⟩
    · exact ⟨e :: extra, by rw [hres2, hstep]; simp, hsub.cons₂ e⟩

/-- C7: every savings entry of `_calculate_savings` has strictly positive
savings, refers to two seed routes with the same vehicle id, and carries
exactly `d(depot, tail_i) + d(depot, head_j) - d(tail_i, head_j)`; the
list is sorted by savings descending; and the merge loop applies merges
only at entries of that list, in list order (so in descending savings
order). -/
theorem clarke_wright_savings_spec (svc : ℚ) (dm tm : SMatrix) (depot_id day : String)
    (routes : List Route) (e : SavingsEntry)
    (he : e ∈ calculate_savings dm depot_id routes) :
    0 < e.2.2 ∧
    List.Sorted (fun a b : SavingsEntry => b.2.2 ≤ a.2.2)
      (calculate_savings dm depot_id routes) ∧
    (merge_routes_fold svc dm tm depot_id day routes
        (calculate_savings dm depot_id routes)).2.Sublist
      (calculate_savings dm depot_id routes) ∧
    ∃ route_i route_j last_i first_j,
      routes.get? e.1 = some route_i ∧
      routes.get? e.2.1 = some route_j ∧
      route_i.vehicle.id = route_j.vehicle.id ∧
      route_i.get_store_ids.getLast? = some last_i ∧
      route_j.get_store_ids.head? = some first_j ∧
      e.2.2 = savingsOf dm depot_id last_i first_j := by
  have he2 : e ∈ savingsUnsorted dm depot_id routes :=
    (List.perm_insertionSort _ _).mem_iff.mp he
  obtain ⟨p, _, hf⟩ := List.mem_filterMap.mp he2
  have main :
      0 < e.2.2 ∧
      ∃ route_i route_j last_i first_j,
        routes.get? e.1 = some route_i ∧
        routes.get? e.2.1 = some route_j ∧
        route_i.vehicle.id = route_j.vehicle.id ∧
        route_i.get_store_ids.getLast? = some last_i ∧
        route_j.get_store_ids.head? = some first_j ∧
        e.2.2 = savingsOf dm depot_id last_i first_j := by
    rcases hg1 : routes.get? p.1 with _ | route_i <;> rw [hg1] at hf
    · simp at hf
    rcases hg2 : routes.get? p.2 with _ | route_j <;> rw [hg2] at hf
    · simp at hf
    simp only at hf
    by_cases hid : route_i.vehicle.id ≠ route_j.vehicle.id
    · rw [if_pos hid] at hf; simp at hf
    rw [if_neg hid] at hf
    push_neg at hid
    rcases hlast : route_i.get_store_ids.getLast? with _ | last_i <;> rw [hlast] at hf
    · simp at hf
    rcases hhead : route_j.get_store_ids.head? with _ | first_j <;> rw [hhead] at hf
    · simp at hf
    simp only at hf
    by_cases hpos : 0 < savingsOf dm depot_id last_i first_j
    · rw [if_pos hpos] at hf
      have he3 : e = (p.1, p.2, savingsOf dm depot_id last_i first_j) :=
        (Option.some.injEq _ _).mp hf.symm
      subst he3
      exact ⟨hpos, route_i, route_j, last_i, first_j, hg1, hg2, hid, hlast, hhead, rfl⟩
    · rw [if_neg hpos] at hf; simp at hf
  refine ⟨main.1, ?_, ?_, main.2⟩
  · exact List.sorted_insertionSort _ _
  · unfold merge_routes_fold
    obtain ⟨extra, hres, hsub⟩ :=
      merge_fold_applied_sublist svc dm tm depot_id day
        (calculate_savings dm depot_id routes) routes.enum []
    rw [hres]
    simpa using hsub

set_option maxHeartbeats 1000000 in
/-- Witness for C7 at the S6 seed routes, whose savings list is the single
entry `(0, 1, 18)` (savings `10 + 10 - 2 = 18`). -/
theorem clarke_wright_savings_spec_witness :
    ((0, 1, 18) : SavingsEntry) ∈ calculate_savings dmS6 "depot" routesS6 ∧
    (0 < ((0, 1, 18) : SavingsEntry).2.2 ∧
      List.Sorted (fun a b : SavingsEntry => b.2.2 ≤ a.2.2)
        (calculate_savings dmS6 "depot" routesS6) ∧
      (merge_routes_fold 60 dmS6 [] "depot" "Mon" routesS6
          (calculate_savings dmS6 "depot" routesS6)).2.Sublist
        (calculate_savings dmS6 "depot" routesS6) ∧
      ∃ route_i route_j last_i first_j,
        routesS6.get? ((0, 1, 18) : SavingsEntry).1 = some route_i ∧
        routesS6.get? ((0, 1, 18) : SavingsEntry).2.1 = some route_j ∧
        route_i.vehicle.id = route_j.vehicle.id ∧
        route_i.get_store_ids.getLast? = some last_i ∧
        route_j.get_store_ids.head? = some first_j ∧
        ((0, 1, 18) : SavingsEntry).2.2 = savingsOf dmS6 "depot" last_i first_j) := by
  have hmem : ((0, 1, 18) : SavingsEntry) ∈ calculate_savings dmS6 "depot" routesS6 := by
    simp [calculate_savings, savingsUnsorted, routesS6, Route.get_store_ids,
      SMatrix.getD0, SMatrix.entry?, dictGet, savingsOf, storeC1w, storeC2w, vehS6, dmS6,
      List.range_succ, List.insertionSort, List.orderedInsert]
    norm_num
  exact ⟨hmem, clarke_wright_savings_spec 60 dmS6 [] "depot" "Mon" routesS6 _ hmem⟩

/-! ## Claim C8 — 2-opt monotonicity -/

/-- Any move accepted by a 2-opt pass strictly lowers the route's total
distance and passes `validate_route`. -/
theorem two_opt_find_accepts (svc : ℚ) (dm tm : SMatrix) (depot_id : String)
    (route c : Route) (h : two_opt_find svc dm tm depot_id route = some c) :
    c.total_distance_km < route.total_distance_km ∧
      (validate_route svc c dm tm).2.1 = true := by
  have hp := List.find?_some h
  rw [Bool.and_eq_true] at hp
  exact ⟨of_decide_eq_true hp.1, hp.2⟩

/-- The bounded 2-opt loop never increases the total distance. -/
theorem two_opt_loop_le (svc : ℚ) (dm tm : SMatrix) (depot_id : String) :
    ∀ (fuel : ℕ) (route : Route),
      (two_opt_loop svc dm tm depot_id fuel route).total_distance_km
        ≤ route.total_distance_km := by
  intro fuel
  induction fuel with
  | zero => intro route; exact le_refl _
  | succ n ih =>
    intro route
    unfold two_opt_loop
    rcases hfind : two_opt_find svc dm tm depot_id route with _ | c
    · exact le_refl _
    · have hlt := (two_opt_find_accepts svc dm tm depot_id route c hfind).1
      have happly : (two_opt_apply route c).total_distance_km = c.total_distance_km := rfl
      calc (two_opt_loop svc dm tm depot_id n (two_opt_apply route c)).total_distance_km
          ≤ (two_opt_apply route c).total_distance_km := ih _
        _ = c.total_distance_km := happly
        _ ≤ route.total_distance_km := le_of_lt hlt

/-- C8: the 2-opt polish never increases a route's `total_distance_km`;
every accepted segment reversal strictly lowers the total distance and
passes `validate_route`; and for a route of at least 4 stops the
improvement loop is the bounded loop with exactly 100 passes of fuel. -/
theorem two_opt_spec (svc : ℚ) (dm tm : SMatrix) (depot_id : String) (route : Route) :
    (two_opt_improve svc dm tm depot_id route).total_distance_km
      ≤ route.total_distance_km ∧
    (∀ c, two_opt_find svc dm tm depot_id route = some c →
      c.total_distance_km < route.total_distance_km ∧
        (validate_route svc c dm tm).2.1 = true) ∧
    (¬ route.stops.length < 4 →
      two_opt_improve svc dm tm depot_id route
        = two_opt_loop svc dm tm depot_id 100 route) := by
  refine ⟨?_, fun c h => two_opt_find_accepts svc dm tm depot_id route c h, fun h => ?_⟩
  · unfold two_opt_improve
    by_cases hlen : route.stops.length < 4
    · rw [if_pos hlen]
    · rw [if_neg hlen]
      exact two_opt_loop_le svc dm tm depot_id 100 route
  · simp [two_opt_improve, h]

set_option maxHeartbeats 2000000 in
/-- Witness for C8: on the fixture route the first 2-opt pass accepts the
reversal of stops 1..2, which strictly lowers the distance and validates. -/
theorem two_opt_spec_witness :
    two_opt_find 60 dm2opt [] "depot" routeTwoOpt = some cTwoOpt ∧
    (cTwoOpt.total_distance_km < routeTwoOpt.total_distance_km ∧
      (validate_route 60 cTwoOpt dm2opt []).2.1 = true) := by
  have hfind : two_opt_find 60 dm2opt [] "depot" routeTwoOpt = some cTwoOpt := by
    simp [two_opt_find, two_opt_pairs, two_opt_candidate, cTwoOpt, routeTwoOpt,
      update_route_metrics, calculate_route_distance, calculate_route_time, chainGetD0,
      Route.add_stop, Route.get_store_ids, SMatrix.getD0, SMatrix.entry?, SMatrix.isEmpty,
      dictGet, storeTA, storeTB, storeTC, storeTD, dm2opt, vehTwoOpt, List.range_succ,
      validate_route, check_time_windows, scheduleStops, check_capacity,
      check_forbidden_intervals, check_fleet_restrictions, check_day_exclusions,
      check_max_duration, Store.get_time_window_for_day, Store.is_day_allowed,
      Vehicle.can_serve_store, List.find?]
    norm_num
  exact ⟨hfind,
    (two_opt_spec 60 dm2opt [] "depot" routeTwoOpt).2.1 cTwoOpt hfind⟩

/-! ## Claim C2 — customers with no compatible vehicle -/

/-- `_update_route_metrics` does not change the stop sequence. -/
theorem update_route_metrics_store_ids (dm tm : SMatrix) (depot_id : String) (r : Route) :
    (update_route_metrics dm tm depot_id r).get_store_ids = r.get_store_ids := by
  unfold update_route_metrics Route.get_store_ids
  split <;> rfl

/-- The scheduling loop re-timestamps stops but keeps their stores. -/
theorem scheduleStops_store_ids (svc : ℚ) (day : Option String) (tm : SMatrix) :
    ∀ (stops : List RouteStop) (prev : String) (current : ℚ),
      ((scheduleStops svc day tm prev current stops).1).map (fun s => s.store.id)
        = stops.map (fun s => s.store.id) := by
  intro stops
  induction stops with
  | nil => intro prev current; rfl
  | cons x xs ih =>
    intro prev current
    simp only [scheduleStops, List.map_cons]
    rw [ih]

/-- `validate_route` re-timestamps stops but keeps their stores. -/
theorem validate_route_store_ids (svc : ℚ) (r : Route) (dm tm : SMatrix) :
    ((validate_route svc r dm tm).1).get_store_ids = r.get_store_ids := by
  simp only [validate_route]
  unfold check_time_windows
  by_cases h : r.stops.isEmpty
  · simp [h]
  · rcases hd : r.depot_departure with _ | t0
    · simp [h, hd]
    · simp only [h, Bool.false_eq_true, if_false, reduceIte, hd, Route.get_store_ids]
      exact scheduleStops_store_ids svc r.day tm r.stops "depot" t0

/-- Rebuilding a route by re-adding a stop list appends those stores. -/
theorem add_stop_fold_store_ids :
    ∀ (stops : List RouteStop) (r0 : Route),
      ((stops.foldl (fun r stop => r.add_stop stop.store) r0)).get_store_ids
        = r0.get_store_ids ++ stops.map (fun s => s.store.id) := by
  intro stops
  induction stops with
  | nil => intro r0; simp
  | cons x xs ih =>
    intro r0
    simp only [List.foldl_cons]
    rw [ih]
    have hadd : (r0.add_stop x.store).get_store_ids = r0.get_store_ids ++ [x.store.id] := by
      simp [Route.add_stop, Route.get_store_ids]
    rw [hadd]
    simp

/-- A merged route carries exactly the stores of its two inputs, in order. -/
theorem merge_two_routes_store_ids (dm tm : SMatrix) (depot_id : String) (r1 r2 : Route) :
    (merge_two_routes dm tm depot_id r1 r2).get_store_ids
      = r1.get_store_ids ++ r2.get_store_ids := by
  unfold merge_two_routes
  rw [update_route_metrics_store_ids, add_stop_fold_store_ids, add_stop_fold_store_ids]
  simp [Route.get_store_ids]

/-- A 2-opt candidate only permutes the stops of its route. -/
theorem two_opt_candidate_store_ids (dm tm : SMatrix) (depot_id : String)
    (r : Route) (i j : ℕ) :
    ∀ id ∈ (two_opt_candidate dm tm depot_id r i j).get_store_ids,
      id ∈ r.get_store_ids := by
  intro id hid
  unfold two_opt_candidate at hid
  rw [update_route_metrics_store_ids, add_stop_fold_store_ids] at hid
  simp only [Route.get_store_ids, List.nil_append] at hid ⊢
  obtain ⟨s, hs, rfl⟩ := List.mem_map.mp hid
  refine List.mem_map_of_mem _ ?_
  rcases List.mem_append.mp hs with hs | hs
  · rcases List.mem_append.mp hs with hs | hs
    · exact List.mem_of_mem_take hs
    · exact List.mem_of_mem_drop (List.mem_of_mem_take (List.mem_reverse.mp hs))
  · exact List.mem_of_mem_drop hs

/-- The bounded 2-opt loop only permutes or keeps stops. -/
theorem two_opt_loop_store_ids (svc : ℚ) (dm tm : SMatrix) (depot_id : String) :
    ∀ (fuel : ℕ) (r : Route) (id : String),
      id ∈ (two_opt_loop svc dm tm depot_id fuel r).get_store_ids →
        id ∈ r.get_store_ids := by
  intro fuel
  induction fuel with
  | zero => intro r id h; exact h
  | succ n ih =>
    intro r id h
    unfold two_opt_loop at h
    rcases hfind : two_opt_find svc dm tm depot_id r with _ | c <;> rw [hfind] at h
    · exact h
    · have h2 := ih _ _ h
      have happly : (two_opt_apply r c).get_store_ids = c.get_store_ids := rfl
      rw [happly] at h2
      have hc := List.mem_of_find?_eq_some hfind
      obtain ⟨p, _, rfl⟩ := List.mem_map.mp hc
      exact two_opt_candidate_store_ids dm tm depot_id r p.1 p.2 id h2

/-- `_two_opt_improve` only permutes or keeps stops. -/
theorem two_opt_improve_store_ids (svc : ℚ) (dm tm : SMatrix) (depot_id : String)
    (r : Route) (id : String)
    (h : id ∈ (two_opt_improve svc dm tm depot_id r).get_store_ids) :
    id ∈ r.get_store_ids := by
  unfold two_opt_improve at h
  by_cases hlen : r.stops.length < 4
  · rw [if_pos hlen] at h; exact h
  · rw [if_neg hlen] at h
    exact two_opt_loop_store_ids svc dm tm depot_id 100 r id h

/-- The active-route dict after one merge step: unchanged, or `j` merged
into `i` for the two looked-up routes. -/
theorem merge_step_active (svc : ℚ) (dm tm : SMatrix) (depot_id day : String)
    (active : ActiveRoutes) (acc : List SavingsEntry) (e : SavingsEntry) :
    (merge_step svc dm tm depot_id day (active, acc) e).1 = active ∨
    ∃ ri rj, ActiveRoutes.findKey active e.1 = some ri ∧
      ActiveRoutes.findKey active e.2.1 = some rj ∧
      (merge_step svc dm tm depot_id day (active, acc) e).1
        = (active.setKey e.1 (merge_two_routes dm tm depot_id ri rj)).dropKey e.2.1 := by
  unfold merge_step
  rcases h1 : ActiveRoutes.findKey active e.1 with _ | ri
  · left; simp [h1]
  · rcases h2 : ActiveRoutes.findKey active e.2.1 with _ | rj
    · left; simp [h1, h2]
    · by_cases h : can_merge_routes svc dm tm depot_id day ri rj
      · right; exact ⟨ri, rj, rfl, rfl, by simp [h1, h2, h]⟩
      · left; simp [h1, h2, h]

/-- A successful `active_routes[i]` lookup returns the value of an entry. -/
theorem findKey_mem (active : ActiveRoutes) (k : ℕ) (r : Route)
    (h : ActiveRoutes.findKey active k = some r) : ∃ p ∈ active, (p : ℕ × Route).2 = r := by
  unfold ActiveRoutes.findKey at h
  rcases hf : active.find? (fun p => p.1 = k) with _ | q <;> rw [hf] at h
  · simp at h
  · refine ⟨q, List.mem_of_find?_eq_some hf, ?_⟩
    simpa using h

/-- Removing a key keeps only existing entries. -/
theorem mem_of_mem_dropKey {active : ActiveRoutes} {k : ℕ} {p : ℕ × Route}
    (h : p ∈ ActiveRoutes.dropKey active k) : p ∈ active :=
  List.mem_of_mem_filter h

/-- An entry after `active_routes[k] = v` is the new binding or an old
entry. -/
theorem mem_setKey {active : ActiveRoutes} {k : ℕ} {v : Route} {p : ℕ × Route}
    (h : p ∈ ActiveRoutes.setKey active k v) : p = (k, v) ∨ p ∈ active := by
  unfold ActiveRoutes.setKey at h
  obtain ⟨q, hq, heq⟩ := List.mem_map.mp h
  by_cases hk : q.1 = k
  · rw [if_pos hk] at heq; left; exact heq.symm
  · rw [if_neg hk] at heq; right; exact heq ▸ hq

/-- Merge-loop invariant: every store id on an active route comes from one
of the seed routes. -/
theorem merge_fold_invariant (svc : ℚ) (dm tm : SMatrix) (depot_id day : String)
    (routes : List Route) :
    ∀ (savings : List SavingsEntry) (active : ActiveRoutes) (acc : List SavingsEntry),
      (∀ p ∈ active, ∀ id ∈ (p : ℕ × Route).2.get_store_ids,
        ∃ r0 ∈ routes, id ∈ r0.get_store_ids) →
      ∀ p ∈ (savings.foldl (merge_step svc dm tm depot_id day) (active, acc)).1,
        ∀ id ∈ (p : ℕ × Route).2.get_store_ids,
          ∃ r0 ∈ routes, id ∈ r0.get_store_ids := by
  intro savings
  induction savings with
  | nil => intro active acc hinv; exact hinv
  | cons e rest ih =>
    intro active acc hinv
    simp only [List.foldl_cons]
    have hinv2 : ∀ p ∈ (merge_step svc dm tm depot_id day (active, acc) e).1,
        ∀ id ∈ (p : ℕ × Route).2.get_store_ids,
          ∃ r0 ∈ routes, id ∈ r0.get_store_ids := by
      rcases merge_step_active svc dm tm depot_id day active acc e with
        hs | ⟨ri, rj, h1, h2, hs⟩
      · rw [hs]; exact hinv
      · rw [hs]
        intro p hp id hid
        rcases mem_setKey (mem_of_mem_dropKey hp) with hp3 | hp3
        · subst hp3
          have hid2 : id ∈ (merge_two_routes dm tm depot_id ri rj).get_store_ids := hid
          rw [merge_two_routes_store_ids] at hid2
          rcases List.mem_append.mp hid2 with hid | hid
          · obtain ⟨q, hq, hq2⟩ := findKey_mem active e.1 ri h1
            exact hinv q hq id (by rw [hq2]; exact hid)
          · obtain ⟨q, hq, hq2⟩ := findKey_mem active e.2.1 rj h2
            exact hinv q hq id (by rw [hq2]; exact hid)
        · exact hinv p hp3 id hid
    exact ih (merge_step svc dm tm depot_id day (active, acc) e).1
      (merge_step svc dm tm depot_id day (active, acc) e).2 hinv2

/-- Every store id on a post-merge route comes from one of the seed
routes. -/
theorem merge_routes_store_ids (svc : ℚ) (dm tm : SMatrix) (depot_id day : String)
    (routes : List Route) (savings : List SavingsEntry) :
    ∀ r ∈ merge_routes svc dm tm depot_id day routes savings,
      ∀ id ∈ r.get_store_ids, ∃ r0 ∈ routes, id ∈ r0.get_store_ids := by
  intro r hr id hid
  unfold merge_routes merge_routes_fold at hr
  obtain ⟨p, hp, rfl⟩ := List.mem_map.mp hr
  have hinit : ∀ q ∈ routes.enum, ∀ id2 ∈ (q : ℕ × Route).2.get_store_ids,
      ∃ r0 ∈ routes, id2 ∈ r0.get_store_ids := by
    intro q hq id2 hid2
    exact ⟨q.2, List.snd_mem_of_mem_enum hq, hid2⟩
  exact merge_fold_invariant svc dm tm depot_id day routes savings routes.enum [] hinit
    p hp id hid

/-- Every seed route carries exactly one store, which has a compatible
vehicle. -/
theorem create_initial_routes_store_ids (vehicles : List Vehicle) (dm tm : SMatrix)
    (depot_id : String) (stores : List Store) (day : String) (t0 : ℚ) :
    ∀ r ∈ create_initial_routes vehicles dm tm depot_id stores day t0,
      ∃ s ∈ stores, r.get_store_ids = [s.id] ∧
        find_compatible_vehicle vehicles s day ≠ none := by
  intro r hr
  unfold create_initial_routes at hr
  obtain ⟨s, hs, hf⟩ := List.mem_filterMap.mp hr
  rcases hv : find_compatible_vehicle vehicles s day with _ | v <;> rw [hv] at hf
  · simp at hf
  · simp only [Option.some.injEq] at hf
    subst hf
    refine ⟨s, hs, ?_, by simp [hv]⟩
    rw [update_route_metrics_store_ids]
    simp [Route.add_stop, Route.get_store_ids]

/-- With at least one day-eligible store, the Clarke-Wright solution's
`unserved_stores` list is empty. -/
theorem clarke_wright_solve_unserved (stores : List Store) (vehicles : List Vehicle)
    (dm tm : SMatrix) (depot_id day : String) (t0 : ℚ)
    (h : (stores.filter (fun s => s.is_day_allowed day)).isEmpty = false) :
    (clarke_wright_solve stores vehicles dm tm depot_id day t0).unserved_stores = [] := by
  unfold clarke_wright_solve
  rw [if_neg (by simp [h])]
  rfl

/-- With at least one day-eligible store, every route of the Clarke-Wright
solution is a validated, metrics-refreshed, 2-opt-polished merge-loop
route. -/
theorem clarke_wright_solve_routes_mem (stores : List Store) (vehicles : List Vehicle)
    (dm tm : SMatrix) (depot_id day : String) (t0 : ℚ) (r : Route)
    (h : (stores.filter (fun s => s.is_day_allowed day)).isEmpty = false)
    (hr : r ∈ (clarke_wright_solve stores vehicles dm tm depot_id day t0).routes) :
    ∃ r1 ∈ merge_routes 60 dm tm depot_id day
        (create_initial_routes vehicles dm tm depot_id
          (stores.filter (fun s => s.is_day_allowed day)) day t0)
        (calculate_savings dm depot_id
          (create_initial_routes vehicles dm tm depot_id
            (stores.filter (fun s => s.is_day_allowed day)) day t0)),
      r = (validate_route 60 (update_route_metrics dm tm depot_id
            (two_opt_improve 60 dm tm depot_id r1)) dm tm).1 := by
  unfold clarke_wright_solve at hr
  rw [if_neg (by simp [h])] at hr
  have hr2 : r ∈ ((((merge_routes 60 dm tm depot_id day
      (create_initial_routes vehicles dm tm depot_id
        (stores.filter (fun s => s.is_day_allowed day)) day t0)
      (calculate_savings dm depot_id
        (create_initial_routes vehicles dm tm depot_id
          (stores.filter (fun s => s.is_day_allowed day)) day t0))).map
        (two_opt_improve 60 dm tm depot_id)).map
      (update_route_metrics dm tm depot_id)).map
    (fun rr => validate_route 60 rr dm tm)).map (fun v => v.1) := hr
  obtain ⟨v, hv, rfl⟩ := List.mem_map.mp hr2
  obtain ⟨rr, hrr, rfl⟩ := List.mem_map.mp hv
  obtain ⟨r2, hr2b, rfl⟩ := List.mem_map.mp hrr
  obtain ⟨r1, hr1, rfl⟩ := List.mem_map.mp hr2b
  exact ⟨r1, hr1, rfl⟩

/-- C2 as amended: a day-eligible customer with no compatible vehicle is
silently dropped by the Clarke-Wright solver: the solver still returns a
Solution (no abort), the customer appears in no route, and — contrary to
the claim — its id is not listed in `unserved_stores` (which is only
populated, with all store ids, when no store at all is day-eligible). -/
theorem clarke_wright_drops_incompatible (stores : List Store) (vehicles : List Vehicle)
    (dm tm : SMatrix) (depot_id day : String) (t0 : ℚ) (store : Store)
    (hmem : store ∈ stores)
    (hday : store.is_day_allowed day = true)
    (hnoveh : ∀ v ∈ vehicles,
      (v.can_serve_store store.id && v.can_fit_demand store.demand_cbm) = false)
    (hnodup : (stores.map Store.id).Nodup) :
    store.id ∉ (clarke_wright_solve stores vehicles dm tm depot_id day t0).unserved_stores ∧
    ∀ r ∈ (clarke_wright_solve stores vehicles dm tm depot_id day t0).routes,
      store.id ∉ r.get_store_ids := by
  have havail : store ∈ stores.filter (fun s => s.is_day_allowed day) :=
    List.mem_filter.mpr ⟨hmem, hday⟩
  have hne : (stores.filter (fun s => s.is_day_allowed day)).isEmpty = false := by
    rcases he : (stores.filter (fun s => s.is_day_allowed day)).isEmpty with _ | _
    · exact he
    · rw [List.isEmpty_iff] at he
      rw [he] at havail
      simp at havail
  constructor
  · rw [clarke_wright_solve_unserved stores vehicles dm tm depot_id day t0 hne]
    simp
  · intro r hr hid
    obtain ⟨r1, hr1, rfl⟩ :=
      clarke_wright_solve_routes_mem stores vehicles dm tm depot_id day t0 r hne hr
    rw [validate_route_store_ids, update_route_metrics_store_ids] at hid
    have hid1 := two_opt_improve_store_ids 60 dm tm depot_id r1 store.id hid
    obtain ⟨r0, hr0, hid0⟩ :=
      merge_routes_store_ids 60 dm tm depot_id day _ _ r1 hr1 store.id hid1
    obtain ⟨s, hs, hids, hfc⟩ :=
      create_initial_routes_store_ids vehicles dm tm depot_id _ day t0 r0 hr0
    rw [hids] at hid0
    have hsid : store.id = s.id := List.mem_singleton.mp hid0
    have hsstores : s ∈ stores := (List.mem_filter.mp hs).1
    have hseq : s = store := List.inj_on_of_nodup_map hnodup hsstores hmem hsid.symm
    subst hseq
    exact hfc (List.find?_eq_none.mpr (fun v hv => by simp [hnoveh v hv]))

/-- C2 counterexample: with one day-eligible store and no compatible
vehicle, the returned Solution's `unserved_stores` is empty — the claim
says it lists `s1`. -/
theorem cw_incompatible_not_in_unserved :
    (clarke_wright_solve [storeNoVeh] [vehForbids] [] [] "depot" "Mon" 480).unserved_stores
      = [] ∧
    "s1" ∉ (clarke_wright_solve [storeNoVeh] [vehForbids] [] [] "depot"
        "Mon" 480).unserved_stores := by
  have h : (clarke_wright_solve [storeNoVeh] [vehForbids] [] [] "depot"
      "Mon" 480).unserved_stores = [] :=
    clarke_wright_solve_unserved [storeNoVeh] [vehForbids] [] [] "depot" "Mon" 480
      (by decide)
  exact ⟨h, by rw [h]; simp⟩

/-- Witness for C2's amended theorem at the concrete one-store instance. -/
theorem clarke_wright_drops_incompatible_witness :
    storeNoVeh ∈ [storeNoVeh] ∧
    (storeNoVeh.id ∉ (clarke_wright_solve [storeNoVeh] [vehForbids] [] [] "depot"
        "Mon" 480).unserved_stores ∧
      ∀ r ∈ (clarke_wright_solve [storeNoVeh] [vehForbids] [] [] "depot"
          "Mon" 480).routes,
        storeNoVeh.id ∉ r.get_store_ids) :=
  ⟨List.mem_singleton.mpr rfl,
    clarke_wright_drops_incompatible [storeNoVeh] [vehForbids] [] [] "depot" "Mon" 480
      storeNoVeh (List.mem_singleton.mpr rfl) (by decide)
      (fun v hv => by rw [List.mem_singleton.mp hv]; decide)
      (by decide)⟩
